import Mathlib

/-!
# Verification of the music-venue reservation / authentication coordinators

The repository's coordinator code lives in
`src/client/src/features/tickets/redux/ticketSaga.ts`,
`src/client/src/features/auth/redux/signInSaga.ts` and
`src/client/src/features/toast/redux/LogErrorToastSaga.ts`; only their test
files are present under `src/`.  Every coordinator below is therefore
modelled from the spec (`spec.md`), faithful to its words, and checked
against the effect sequences the tests assert.

Each saga is embedded shallowly as a function from its inputs and an
environment (the outcome of each network call / race, decided externally)
to the list of redux-saga effects it yields, plus the resulting
transaction state.  Claims are proved as theorems about those traces.
-/

namespace MusicVenue

/-- A reservation record: `Hold { showId, holdId, seatCount }` from the
spec's data model.  The purchase reservation sent to the server has the
same shape (`reserveTicketServerCall` accepts both in the tests). -/
structure Reservation where
  showId : Nat
  holdId : Nat
  seatCount : Nat
deriving DecidableEq

/-- `ReservationIntent` / `TicketAction` from the spec: the user-declared
action steering the transaction, used to select error messages. -/
inductive TicketAction where
  | hold
  | purchase
  | release
  | abort
deriving DecidableEq

/-- Toast severity values, matching the `status` strings used by the
tests: `info`, `warning`, `error`, `success`. -/
inductive ToastStatus where
  | info
  | warning
  | error
  | success
deriving DecidableEq

/-- `ToastOptions { title, status }`: the notification value object. -/
structure ToastOptions where
  title : String
  status : ToastStatus
deriving DecidableEq

/-- `SignInDetails { email, password, action }`, `action` one of
`signIn` / `signUp`. -/
inductive AuthAction where
  | signIn
  | signUp
deriving DecidableEq

structure SignInDetails where
  email : String
  password : String
  action : AuthAction
deriving DecidableEq

/-- `LoggedInUser { id, email, token }`: the Session created by a
successful authentication. -/
structure LoggedInUser where
  id : Nat
  email : String
  token : String
deriving DecidableEq

/-- The observable redux-saga effects the coordinators yield: server
calls on the Network Gateway, dispatched actions (`put`), the select of
the stored intent, fork/cancel of the authentication child task, and the
two `take` suspension points of the sign-in loop. -/
inductive Effect where
  | reserveTicketServerCall (r : Reservation) (withCancelToken : Bool)
  | releaseServerCall (r : Reservation)
  | cancelPurchaseServerCall (r : Reservation)
  | cancelSourceCancel
  | showToast (t : ToastOptions)
  | putEndTransaction
  | putResetTransaction
  | callCancelTransaction (hold : Option Reservation)
  | selectTicketAction
  | forkAuthenticateUser (c : SignInDetails)
  | putStartSignIn
  | authServerCall (c : SignInDetails)
  | putSignIn (u : LoggedInUser)
  | putSignOut
  | putEndSignIn
  | cancelAuthTask
  | takeSignInRequest
  | takeCancelOrEnd
  | callLogErrorToast (title : String)
deriving DecidableEq

/-- The reservation coordinator's private state: the active Hold, if
any (`Idle` is `activeHold = none`). -/
structure TransactionState where
  activeHold : Option Reservation
deriving DecidableEq

/-- The release server calls occurring in a trace, in order. -/
def releaseCallsIn (tr : List Effect) : List Reservation :=
  tr.filterMap fun e =>
    match e with
    | .releaseServerCall r => some r
    | _ => none

/-- The cancelPurchase server calls occurring in a trace, in order. -/
def cancelPurchaseCallsIn (tr : List Effect) : List Reservation :=
  tr.filterMap fun e =>
    match e with
    | .cancelPurchaseServerCall r => some r
    | _ => none

/-- The toasts raised in a trace, in order. -/
def toastsIn (tr : List Effect) : List ToastOptions :=
  tr.filterMap fun e =>
    match e with
    | .showToast t => some t
    | _ => none

/-- The Sessions stored (`put(signIn(...))`) in a trace, in order. -/
def signInPutsIn (tr : List Effect) : List LoggedInUser :=
  tr.filterMap fun e =>
    match e with
    | .putSignIn u => some u
    | _ => none

/-- Modelled from the spec: `generateErrorMessage(errorText, intent)` of
`ticketSaga.ts` (absent from src/) builds the intent-specific user-facing
message for a failed reservation action, surfacing the raw error text
verbatim. -/
def ticketActionLabel : TicketAction → String
  | .hold => "hold"
  | .purchase => "purchase"
  | .release => "release"
  | .abort => "abort"

def generateErrorMessage (errorText : String) (intent : TicketAction) : String :=
  "Could not " ++ ticketActionLabel intent ++ " tickets: " ++ errorText

/-- Modelled from the spec: `generateErrorToastOptions` of `ticketSaga.ts`
(absent from src/) wraps `generateErrorMessage` into an Error toast. -/
def generateErrorToastOptions (errorText : String) (intent : TicketAction) : ToastOptions :=
  { title := generateErrorMessage errorText intent, status := .error }

/-- Modelled from the spec: `cancelTransaction` (Transaction Cleanup,
section 4.3) of `ticketSaga.ts` (absent from src/).  `cleanup(hold)` calls
the Network Gateway release for `hold` and resets reservation state to
Idle; it is guarded by the single-owner "is this hold still active" check
(design note, section 9) so that an undefined or already-released hold
makes it a no-op — the idempotence requirement. -/
def cancelTransaction (s : TransactionState) (hold : Option Reservation) :
    TransactionState × List Effect :=
  match hold with
  | none => (s, [])
  | some h =>
      if s.activeHold = some h then
        ({ activeHold := none }, [.releaseServerCall h, .putResetTransaction])
      else
        (s, [])

/-- Payload of `startTicketPurchase`: the purchase reservation plus the
hold it purchases against. -/
structure PurchasePayload where
  purchaseReservation : Reservation
  holdReservation : Reservation
deriving DecidableEq

/-- How the purchase race resolves: the purchase network call completes,
the abort trigger wins the race, or the purchase call fails with an
error before either branch resolves. -/
inductive PurchaseOutcome where
  | completes
  | abortWins
  | fails (err : String)
deriving DecidableEq

/-- Result of running a purchase attempt: the new transaction state, the
yielded effects, and the error the saga re-throws to `ticketFlow` (if
any). -/
structure PurchaseRun where
  state : TransactionState
  trace : List Effect
  thrown : Option String
deriving DecidableEq

/-- Modelled from the spec: `purchaseTickets` (Purchase Race Coordinator,
section 4.2) of `ticketSaga.ts` (absent from src/).  It starts the
purchase network call (a reserve with the cancellation token threaded
through) and races it against the abort-purchase trigger:
* purchase completes first — Success toast "tickets purchased", release
  of the original Hold, `endTransaction`; the cancellation handle is
  never invoked;
* abort wins — invoke the cancellation handle, call `cancelPurchase` on
  the server, Warning toast "purchase canceled", run Transaction Cleanup
  against the original Hold;
* purchase call fails — call `cancelPurchase` for cleanup of partial
  registration and re-throw so `ticketFlow` raises the error toast and
  runs Transaction Cleanup. -/
def purchaseTickets (s : TransactionState) (p : PurchasePayload)
    (outcome : PurchaseOutcome) : PurchaseRun :=
  match outcome with
  | .completes =>
      { state := { activeHold := none }
        trace := [.reserveTicketServerCall p.purchaseReservation true,
                  .showToast { title := "tickets purchased", status := .success },
                  .releaseServerCall p.holdReservation,
                  .putEndTransaction]
        thrown := none }
  | .abortWins =>
      let c := cancelTransaction s (some p.holdReservation)
      { state := c.1
        trace := [.reserveTicketServerCall p.purchaseReservation true,
                  .cancelSourceCancel,
                  .cancelPurchaseServerCall p.purchaseReservation,
                  .showToast { title := "purchase canceled", status := .warning },
                  .callCancelTransaction (some p.holdReservation)] ++ c.2
        thrown := none }
  | .fails err =>
      { state := s
        trace := [.reserveTicketServerCall p.purchaseReservation true,
                  .cancelPurchaseServerCall p.purchaseReservation]
        thrown := some err }

/-- Modelled from the spec: `releaseTickets` of `ticketSaga.ts` (absent
from src/).  On start-release / start-abort it invokes release on the
Network Gateway for the current Hold, raises a Warning toast titled with
the trigger's reason, then runs Transaction Cleanup (which, the hold
having just been released, performs no second release). -/
def releaseTickets (hold : Reservation) (reason : String) :
    TransactionState × List Effect :=
  let s1 : TransactionState := { activeHold := none }
  let c := cancelTransaction s1 (some hold)
  (c.1, [.releaseServerCall hold,
         .showToast { title := reason, status := .warning },
         .callCancelTransaction (some hold)] ++ c.2)

/-- The trigger the coordinator takes after a successful hold: one of
start-purchase, start-release, start-abort (release/abort carry the
reason string of their payload). -/
inductive NextTrigger where
  | purchase (p : PurchasePayload)
  | release (reason : String)
  | abort (reason : String)
deriving DecidableEq

/-- Outcome of the reserve (hold) network call. -/
inductive ReserveOutcome where
  | success
  | failure (err : String)
deriving DecidableEq

/-- Environment of one reservation transaction: how the reserve call
resolves, which trigger follows a successful hold, how the purchase race
resolves (when a purchase is started), and the ReservationIntent the
store's selector returns (last known intent, default Hold). -/
structure TicketEnv where
  reserveOutcome : ReserveOutcome
  next : NextTrigger
  purchaseOutcome : PurchaseOutcome
  intent : TicketAction
deriving DecidableEq

/-- Modelled from the spec: `ticketFlow` (Reservation Transaction
Coordinator, section 4.1) of `ticketSaga.ts` (absent from src/).
Starting from `Idle`, it calls reserve for the hold; on failure it reads
the last-known intent via select, raises the Error toast built by
`generateErrorToastOptions` and runs Transaction Cleanup; on success it
holds the Hold and reacts to exactly one of start-purchase /
start-release / start-abort, delegating to `purchaseTickets` or
`releaseTickets`; a purchase failure re-thrown by `purchaseTickets` is
handled like a reserve failure (error toast from the selected intent,
then Transaction Cleanup against the original hold). -/
def ticketFlow (holdRes : Reservation) (env : TicketEnv) :
    TransactionState × List Effect :=
  let s0 : TransactionState := { activeHold := none }
  match env.reserveOutcome with
  | .failure err =>
      let c := cancelTransaction s0 (some holdRes)
      (c.1, [.reserveTicketServerCall holdRes false,
             .selectTicketAction,
             .showToast (generateErrorToastOptions err env.intent),
             .callCancelTransaction (some holdRes)] ++ c.2)
  | .success =>
      let s1 : TransactionState := { activeHold := some holdRes }
      match env.next with
      | .release reason =>
          let r := releaseTickets holdRes reason
          (r.1, .reserveTicketServerCall holdRes false :: r.2)
      | .abort reason =>
          let r := releaseTickets holdRes reason
          (r.1, .reserveTicketServerCall holdRes false :: r.2)
      | .purchase p =>
          let pr := purchaseTickets s1 p env.purchaseOutcome
          match pr.thrown with
          | none => (pr.state, .reserveTicketServerCall holdRes false :: pr.trace)
          | some err =>
              let c := cancelTransaction pr.state (some holdRes)
              (c.1, (.reserveTicketServerCall holdRes false :: pr.trace) ++
                    [.selectTicketAction,
                     .showToast (generateErrorToastOptions err env.intent),
                     .callCancelTransaction (some holdRes)] ++ c.2)

/-- Outcome of the authenticate network call when it is allowed to
complete. -/
inductive AuthOutcome where
  | success (u : LoggedInUser)
  | failure (err : String)
deriving DecidableEq

/-- Environment of one sign-in attempt: either the child authentication
task runs to completion (and the multi-way wait resolves with
`endSignIn`), or a cancel-sign-in trigger arrives while the authenticate
call is still pending; `lateResult` is what the abandoned call would
later resolve to — it is discarded, never applied. -/
inductive SignInEnv where
  | completes (outcome : AuthOutcome)
  | canceledWhilePending (lateResult : Option LoggedInUser)
deriving DecidableEq

/-- Modelled from the spec: `authenticateUser` of `signInSaga.ts` (absent
from src/), the supervised child task: raise the starting marker
(`startSignIn`), call authenticate; on success store the Session
(`signIn`), raise the Info toast "Signed in as {email}"; on failure raise
the Warning toast "Sign in failed: {reason}"; either way settle with
`endSignIn`.  The effects after the pending authenticate call. -/
def authenticateUserRest (outcome : AuthOutcome) : List Effect :=
  match outcome with
  | .success u =>
      [.putSignIn u,
       .showToast { title := "Signed in as " ++ u.email, status := .info },
       .putEndSignIn]
  | .failure err =>
      [.showToast { title := "Sign in failed: " ++ err, status := .warning },
       .putEndSignIn]

/-- Modelled from the spec: one iteration of the `signInFlow` supervising
loop (Authentication Session Coordinator, section 4.4) of `signInSaga.ts`
(absent from src/): take a sign-in request, fork `authenticateUser` (the
child runs up to its suspension on the authenticate call), wait for the
first of cancel-sign-in / end-sign-in; on cancel-sign-in, cancel the
child task (its pending call is abandoned and its result, `lateResult`,
is discarded), raise the Warning toast "Sign in canceled", put `signOut`
and `endSignIn`; otherwise issue no cancel.  The loop then re-enters its
wait for the next sign-in request (trailing `takeSignInRequest`). -/
def signInFlow (creds : SignInDetails) (env : SignInEnv) : List Effect :=
  [.takeSignInRequest,
   .forkAuthenticateUser creds,
   .putStartSignIn,
   .authServerCall creds,
   .takeCancelOrEnd] ++
  (match env with
   | .completes outcome => authenticateUserRest outcome
   | .canceledWhilePending _ =>
       [.cancelAuthTask,
        .showToast { title := "Sign in canceled", status := .warning },
        .putSignOut,
        .putEndSignIn]) ++
  [.takeSignInRequest]

/-- Modelled from the spec: `logErrorToasts` of `LogErrorToastSaga.ts`
(absent from src/; the spec's Notification Sink analytics hook, behaviour
fixed by `LogErrorToastSaga.test.ts`): on a dispatched toast action it
calls the analytics function `logErrorToast` with the toast's title when
the status is error, and does nothing otherwise. -/
def logErrorToasts (payload : ToastOptions) : List Effect :=
  if payload.status = .error then
    [.callLogErrorToast payload.title]
  else
    []

/-! ## Theorems -/

/-- C1: when the abort signal wins the purchase race, `purchaseTickets`
invokes the purchase's cancellation handle AND makes a cancelPurchase
server call (never only one of the two), raises exactly the notification
{ title: "purchase canceled", severity: Warning }, runs Transaction
Cleanup against the original hold, and the "tickets purchased" success
notification never fires. -/
theorem purchaseTickets_abort_wins (s : TransactionState) (p : PurchasePayload) :
    Effect.cancelSourceCancel ∈ (purchaseTickets s p .abortWins).trace
  ∧ cancelPurchaseCallsIn (purchaseTickets s p .abortWins).trace = [p.purchaseReservation]
  ∧ toastsIn (purchaseTickets s p .abortWins).trace
      = [{ title := "purchase canceled", status := .warning }]
  ∧ Effect.callCancelTransaction (some p.holdReservation)
      ∈ (purchaseTickets s p .abortWins).trace
  ∧ ({ title := "tickets purchased", status := .success } : ToastOptions)
      ∉ toastsIn (purchaseTickets s p .abortWins).trace := by
  by_cases hc : s.activeHold = some p.holdReservation <;>
    simp [purchaseTickets, cancelTransaction, toastsIn, cancelPurchaseCallsIn, hc]

/-- C2: when the purchase network call completes first, `purchaseTickets`
raises the Success notification "tickets purchased", releases the
original hold, and signals `endTransaction`; the cancellation handle is
never invoked, no cancelPurchase call is made, no "purchase canceled"
notification fires, and Transaction Cleanup does not run. -/
theorem purchaseTickets_success (s : TransactionState) (p : PurchasePayload) :
    toastsIn (purchaseTickets s p .completes).trace
      = [{ title := "tickets purchased", status := .success }]
  ∧ releaseCallsIn (purchaseTickets s p .completes).trace = [p.holdReservation]
  ∧ Effect.putEndTransaction ∈ (purchaseTickets s p .completes).trace
  ∧ Effect.cancelSourceCancel ∉ (purchaseTickets s p .completes).trace
  ∧ cancelPurchaseCallsIn (purchaseTickets s p .completes).trace = []
  ∧ (∀ h : Option Reservation,
      Effect.callCancelTransaction h ∉ (purchaseTickets s p .completes).trace) := by
  simp [purchaseTickets, toastsIn, releaseCallsIn, cancelPurchaseCallsIn]

/-- C3: when a cancel-sign-in trigger arrives while the authenticate call
is pending, `signInFlow` cancels the forked child task, raises exactly
the notification { title: "Sign in canceled", severity: Warning },
issues a sign-out side effect, settles with `endSignIn`, and no Session
is ever created — even when the abandoned network call would later
resolve successfully (`lateResult` arbitrary). -/
theorem signInFlow_cancel (creds : SignInDetails) (lateResult : Option LoggedInUser) :
    Effect.cancelAuthTask ∈ signInFlow creds (.canceledWhilePending lateResult)
  ∧ toastsIn (signInFlow creds (.canceledWhilePending lateResult))
      = [{ title := "Sign in canceled", status := .warning }]
  ∧ Effect.putSignOut ∈ signInFlow creds (.canceledWhilePending lateResult)
  ∧ Effect.putEndSignIn ∈ signInFlow creds (.canceledWhilePending lateResult)
  ∧ signInPutsIn (signInFlow creds (.canceledWhilePending lateResult)) = [] := by
  simp [signInFlow, toastsIn, signInPutsIn]

/-- C4: Transaction Cleanup is idempotent — invoking `cancelTransaction`
a second time on the same, now-inactive, hold leaves the state unchanged
and yields no effect at all (no second release server call), and
invoking it with an undefined hold is a no-op. -/
theorem cancelTransaction_idempotent (s : TransactionState) (h : Reservation) :
    (cancelTransaction (cancelTransaction s (some h)).1 (some h)).1
      = (cancelTransaction s (some h)).1
  ∧ (cancelTransaction (cancelTransaction s (some h)).1 (some h)).2 = []
  ∧ cancelTransaction s none = (s, []) := by
  by_cases hc : s.activeHold = some h <;> simp [cancelTransaction, hc]

/-- C5: when the reserve call fails with some error text, `ticketFlow`
raises exactly the Error notification `generateErrorToastOptions(err,
intent)` with the intent read from the store, runs Transaction Cleanup
against the attempted hold, makes no release server call (the hold never
existed), and returns to Idle. -/
theorem ticketFlow_reserve_failure (holdRes : Reservation) (err : String)
    (next : NextTrigger) (po : PurchaseOutcome) (intent : TicketAction) :
    toastsIn (ticketFlow holdRes ⟨.failure err, next, po, intent⟩).2
      = [generateErrorToastOptions err intent]
  ∧ Effect.selectTicketAction ∈ (ticketFlow holdRes ⟨.failure err, next, po, intent⟩).2
  ∧ Effect.callCancelTransaction (some holdRes)
      ∈ (ticketFlow holdRes ⟨.failure err, next, po, intent⟩).2
  ∧ releaseCallsIn (ticketFlow holdRes ⟨.failure err, next, po, intent⟩).2 = []
  ∧ (ticketFlow holdRes ⟨.failure err, next, po, intent⟩).1 = { activeHold := none } := by
  simp [ticketFlow, cancelTransaction, toastsIn, releaseCallsIn]

/-- C6: when the purchase call fails with a server error, `ticketFlow`
raises exactly the Error notification built by `generateErrorToastOptions`
from the error text and the hold transaction's intent (Hold), calls
cancelPurchase against the server, and runs Transaction Cleanup against
the original hold. -/
theorem ticketFlow_purchase_failure (holdRes : Reservation) (p : PurchasePayload)
    (err : String) :
    cancelPurchaseCallsIn (ticketFlow holdRes ⟨.success, .purchase p, .fails err, .hold⟩).2
      = [p.purchaseReservation]
  ∧ toastsIn (ticketFlow holdRes ⟨.success, .purchase p, .fails err, .hold⟩).2
      = [generateErrorToastOptions err .hold]
  ∧ Effect.callCancelTransaction (some holdRes)
      ∈ (ticketFlow holdRes ⟨.success, .purchase p, .fails err, .hold⟩).2 := by
  simp [ticketFlow, purchaseTickets, cancelTransaction, toastsIn, cancelPurchaseCallsIn]

/-- C7: after a successful hold, both the start-release and the
start-abort trigger (reason "abort") make `ticketFlow` invoke the
release server call for the current hold exactly once, raise exactly the
Warning notification titled "abort", run Transaction Cleanup, and return
the transaction to Idle with no hold retained. -/
theorem ticketFlow_release_and_abort (holdRes : Reservation)
    (po : PurchaseOutcome) (intent : TicketAction) :
    (releaseCallsIn (ticketFlow holdRes ⟨.success, .release "abort", po, intent⟩).2
        = [holdRes]
      ∧ toastsIn (ticketFlow holdRes ⟨.success, .release "abort", po, intent⟩).2
        = [{ title := "abort", status := .warning }]
      ∧ Effect.callCancelTransaction (some holdRes)
        ∈ (ticketFlow holdRes ⟨.success, .release "abort", po, intent⟩).2
      ∧ (ticketFlow holdRes ⟨.success, .release "abort", po, intent⟩).1
        = { activeHold := none })
  ∧ (releaseCallsIn (ticketFlow holdRes ⟨.success, .abort "abort", po, intent⟩).2
        = [holdRes]
      ∧ toastsIn (ticketFlow holdRes ⟨.success, .abort "abort", po, intent⟩).2
        = [{ title := "abort", status := .warning }]
      ∧ Effect.callCancelTransaction (some holdRes)
        ∈ (ticketFlow holdRes ⟨.success, .abort "abort", po, intent⟩).2
      ∧ (ticketFlow holdRes ⟨.success, .abort "abort", po, intent⟩).1
        = { activeHold := none }) := by
  simp [ticketFlow, releaseTickets, cancelTransaction, toastsIn, releaseCallsIn]

/-- C8: a sign-in or sign-up request whose authenticate call succeeds
makes `signInFlow` fork `authenticateUser` with the credentials, raise
the starting marker, call authenticate with the credentials, store the
Session returned by the call, raise exactly the Info notification
"Signed in as {email}", and settle with `endSignIn`. -/
theorem signInFlow_success (creds : SignInDetails) (u : LoggedInUser) :
    Effect.forkAuthenticateUser creds ∈ signInFlow creds (.completes (.success u))
  ∧ Effect.putStartSignIn ∈ signInFlow creds (.completes (.success u))
  ∧ Effect.authServerCall creds ∈ signInFlow creds (.completes (.success u))
  ∧ signInPutsIn (signInFlow creds (.completes (.success u))) = [u]
  ∧ toastsIn (signInFlow creds (.completes (.success u)))
      = [{ title := "Signed in as " ++ u.email, status := .info }]
  ∧ Effect.putEndSignIn ∈ signInFlow creds (.completes (.success u)) := by
  simp [signInFlow, authenticateUserRest, toastsIn, signInPutsIn]

/-- C9: when the multi-way wait settles with the normal-completion action
rather than cancel-sign-in, `signInFlow` issues no cancel effect on the
forked child task, and after the settling `endSignIn` its very next step
is to wait again for the next sign-in request. -/
theorem signInFlow_no_cancel_on_end (creds : SignInDetails) (outcome : AuthOutcome) :
    Effect.cancelAuthTask ∉ signInFlow creds (.completes outcome)
  ∧ (∃ tr0, signInFlow creds (.completes outcome)
      = tr0 ++ [Effect.putEndSignIn, Effect.takeSignInRequest]) := by
  cases outcome with
  | success u =>
      refine ⟨by simp [signInFlow, authenticateUserRest],
        ⟨[.takeSignInRequest, .forkAuthenticateUser creds, .putStartSignIn,
          .authServerCall creds, .takeCancelOrEnd, .putSignIn u,
          .showToast { title := "Signed in as " ++ u.email, status := .info }], rfl⟩⟩
  | failure err =>
      refine ⟨by simp [signInFlow, authenticateUserRest],
        ⟨[.takeSignInRequest, .forkAuthenticateUser creds, .putStartSignIn,
          .authServerCall creds, .takeCancelOrEnd,
          .showToast { title := "Sign in failed: " ++ err, status := .warning }], rfl⟩⟩

/-- C10: `logErrorToasts` calls the analytics function `logErrorToast`
with the toast's title exactly when the dispatched toast action's status
is error; for every non-error status it makes no call at all. -/
theorem logErrorToasts_error_only (title : String) :
    logErrorToasts { title := title, status := .error }
      = [.callLogErrorToast title]
  ∧ logErrorToasts { title := title, status := .info } = []
  ∧ logErrorToasts { title := title, status := .warning } = []
  ∧ logErrorToasts { title := title, status := .success } = [] := by
  refine ⟨rfl, rfl, rfl, rfl⟩

end MusicVenue
